import Mathlib

/-! # CodeCircle — verification of the collaborative interaction and notification core

A shallow embedding of the vote ledger, thread store, membership registry,
notification journal and presence/topic broker of the CodeCircle forum,
together with proofs about the embedded operations.

Actor, connection, post, comment and team identifiers are modelled as `Nat`;
the JavaScript code compares ids by `toString()` equality, which is plain
id equality here.  Mongoose id arrays are modelled as `List Nat`: `push`
appends, `filter`/`pull` remove every occurrence, `includes`/`some ===`
is list membership.
-/

namespace CodeCircle

/-- Response payload of the vote route handlers: the returned `score`,
`hasUpvoted` and `hasDownvoted` fields of the JSON body. -/
structure VoteResponse where
  score : Int
  hasUpvoted : Bool
  hasDownvoted : Bool
deriving Repr, DecidableEq

/-- The vote state of a votable document (post or comment): the `upvotes` and
`downvotes` id arrays of the Post / Comment schemas. -/
structure Votable where
  upvotes : List Nat
  downvotes : List Nat
deriving Repr, DecidableEq

/-- The virtual `score` of the Post / Comment schemas:
`upvotes.length - downvotes.length`. -/
def Votable.score (v : Votable) : Int :=
  (v.upvotes.length : Int) - (v.downvotes.length : Int)

/-- The upvote route handler of `src/server/routes/posts.js` lines 336-382
(the comment upvote handler in `routes/comments.js` is identical): if the
user already upvoted, remove the upvote; otherwise push the upvote and, when
the user had downvoted, remove the downvote.  Returns the updated document
and the response body. -/
def upvotePost (p : Votable) (userId : Nat) : Votable × VoteResponse :=
  let hasUpvoted := p.upvotes.contains userId
  let hasDownvoted := p.downvotes.contains userId
  let p' : Votable :=
    if hasUpvoted then
      { p with upvotes := p.upvotes.filter (· != userId) }
    else
      { upvotes := p.upvotes ++ [userId],
        downvotes :=
          if hasDownvoted then p.downvotes.filter (· != userId) else p.downvotes }
  (p', { score := (p'.upvotes.length : Int) - (p'.downvotes.length : Int),
         hasUpvoted := !hasUpvoted,
         hasDownvoted := false })

/-- The downvote route handler of `src/server/routes/posts.js` lines 387-433,
mirror image of `upvotePost`. -/
def downvotePost (p : Votable) (userId : Nat) : Votable × VoteResponse :=
  let hasUpvoted := p.upvotes.contains userId
  let hasDownvoted := p.downvotes.contains userId
  let p' : Votable :=
    if hasDownvoted then
      { p with downvotes := p.downvotes.filter (· != userId) }
    else
      { downvotes := p.downvotes ++ [userId],
        upvotes :=
          if hasUpvoted then p.upvotes.filter (· != userId) else p.upvotes }
  (p', { score := (p'.upvotes.length : Int) - (p'.downvotes.length : Int),
         hasUpvoted := false,
         hasDownvoted := !hasDownvoted })

/-- The upvote route handler of the second posts router (lines 506-541 of the
document concatenated after `routes/teams.js`): it first pulls the user from
`downvotes` unconditionally, then toggles the upvote; the response reads the
virtual `post.score` and re-checks `upvotes.includes(userId)` on the mutated
array. -/
def upvotePostAlt (p : Votable) (userId : Nat) : Votable × VoteResponse :=
  let downvotes' := p.downvotes.filter (· != userId)
  let upvotes' :=
    if p.upvotes.contains userId then p.upvotes.filter (· != userId)
    else p.upvotes ++ [userId]
  let p' : Votable := { upvotes := upvotes', downvotes := downvotes' }
  (p', { score := p'.score,
         hasUpvoted := upvotes'.contains userId,
         hasDownvoted := false })

/-- The downvote route handler of the second posts router (lines 547-582),
mirror image of `upvotePostAlt`. -/
def downvotePostAlt (p : Votable) (userId : Nat) : Votable × VoteResponse :=
  let upvotes' := p.upvotes.filter (· != userId)
  let downvotes' :=
    if p.downvotes.contains userId then p.downvotes.filter (· != userId)
    else p.downvotes ++ [userId]
  let p' : Votable := { upvotes := upvotes', downvotes := downvotes' }
  (p', { score := p'.score,
         hasUpvoted := false,
         hasDownvoted := downvotes'.contains userId })

/-- One vote operation: an upvote or a downvote request by a user. -/
inductive VoteOp where
  | up (userId : Nat)
  | down (userId : Nat)
deriving Repr, DecidableEq

/-- Apply one vote operation through the toggle handlers of the first posts
router, keeping the resulting document state. -/
def applyVote (p : Votable) : VoteOp → Votable
  | .up u => (upvotePost p u).1
  | .down u => (downvotePost p u).1

/-- Apply a finite sequence of vote operations, left to right. -/
def applyVotes (p : Votable) (ops : List VoteOp) : Votable :=
  ops.foldl applyVote p

/-- No actor id is a member of both the upvote and the downvote array. -/
def Votable.DisjointVotes (v : Votable) : Prop :=
  ∀ a ∈ v.upvotes, a ∉ v.downvotes

instance (v : Votable) : Decidable v.DisjointVotes :=
  inferInstanceAs (Decidable (∀ a ∈ v.upvotes, a ∉ v.downvotes))

/-- The `role` field of an embedded team member (Team schema). -/
inductive TeamRole where
  | admin
  | member
deriving Repr, DecidableEq

/-- One entry of the Team schema's embedded `members` array. -/
structure TeamMember where
  user : Nat
  role : TeamRole
  joinedAt : Nat
deriving Repr, DecidableEq

/-- A team document: creator, embedded member list, capacity and open flag
(Team schema fields `creator`, `members`, `maxMembers`, `isOpen`). -/
structure Team where
  creator : Nat
  members : List TeamMember
  maxMembers : Nat
  isOpen : Bool
deriving Repr, DecidableEq

/-- The failure kinds of the join route: already a member / team full / team
not open for new members. -/
inductive JoinError where
  | alreadyMember
  | teamFull
  | teamClosed
deriving Repr, DecidableEq

/-- The membership test of the join route:
`team.members.some(member => member.user.toString() === req.user._id.toString())`. -/
def Team.isMember (t : Team) (userId : Nat) : Bool :=
  t.members.any (fun m => m.user == userId)

/-- The join route handler (`src/server/routes/teams.js` lines 213-299): the
checks run in source order — already-member, then full
(`members.length >= maxMembers`), then closed (`!isOpen`) — and each failure
returns before the document is modified, so the stored team is unchanged; on
success the user is appended with `role: 'member'` and a join timestamp. -/
def joinTeam (t : Team) (userId : Nat) (now : Nat) : Team × Option JoinError :=
  if t.isMember userId then (t, some .alreadyMember)
  else if t.maxMembers ≤ t.members.length then (t, some .teamFull)
  else if !t.isOpen then (t, some .teamClosed)
  else ({ t with members := t.members ++ [⟨userId, .member, now⟩] }, none)

/-- A connection-lifecycle event: a socket of a user is opened (the
`connection` handler runs) or closed (its `disconnect` handler runs). -/
inductive ConnEvent where
  | connect (userId socketId : Nat)
  | disconnect (userId socketId : Nat)
deriving Repr, DecidableEq

/-- State of the socket service's presence tracking.  `users` is the
`userId -> socketId` Map of `SocketService` (a single socket id per user, as
in the source); `liveConns` is the ground-truth set of currently open
`(userId, socketId)` connections, kept alongside to state liveness claims —
it is not a structure of the source. -/
structure PresenceState where
  users : Nat → Option Nat
  liveConns : List (Nat × Nat)

/-- The empty presence state (no connections, empty Map). -/
def PresenceState.init : PresenceState := ⟨fun _ => none, []⟩

/-- One step of the connection handlers (`part_006` lines 42-96): on
`connection`, `this.users.set(socket.userId, socket.id)`; on `disconnect`,
`this.users.delete(socket.userId)` — keyed by the user id alone, whichever
of the user's sockets closed. -/
def stepPresence (st : PresenceState) : ConnEvent → PresenceState
  | .connect u s =>
      ⟨fun v => if v = u then some s else st.users v, st.liveConns ++ [(u, s)]⟩
  | .disconnect u s =>
      ⟨fun v => if v = u then none else st.users v,
       st.liveConns.filter (· != (u, s))⟩

/-- Run a sequence of connection events from a given state. -/
def runPresenceFrom (st : PresenceState) (tr : List ConnEvent) : PresenceState :=
  tr.foldl stepPresence st

/-- Run a sequence of connection events from the empty state. -/
def runPresence (tr : List ConnEvent) : PresenceState :=
  runPresenceFrom PresenceState.init tr

/-- The method `SocketService.isUserOnline` (`part_006` lines 134-137):
`this.users.has(userId)`. -/
def isUserOnline (st : PresenceState) (userId : Nat) : Bool :=
  (st.users userId).isSome

/-- Whether the user actually has at least one live connection (ground
truth, not a structure of the source). -/
def hasLiveConnection (st : PresenceState) (userId : Nat) : Bool :=
  st.liveConns.any (fun p => p.1 == userId)

/-- Whether the last connection event concerning the user in the trace is a
connect (rather than a disconnect, or no event at all). -/
def lastConnected (tr : List ConnEvent) (userId : Nat) : Bool :=
  tr.foldl
    (fun b e =>
      match e with
      | .connect v _ => if v = userId then true else b
      | .disconnect v _ => if v = userId then false else b)
    false

/-- A topic (socket.io room name): the room strings `user_<id>`, `post_<id>`
and `team_<id>` built by the connection handlers; the three prefixes are
distinct, so the name space is faithfully a tagged id. -/
inductive Topic where
  | user (id : Nat)
  | post (id : Nat)
  | team (id : Nat)
deriving Repr, DecidableEq

/-- Room membership of the broker: the set of (connection id, room) pairs.
`socket.join` (the `join_post` / `join_team` handlers, `part_006` lines
52-70) is idempotent; `socket.leave` removes the pair. -/
def joinRoom (st : List (Nat × Topic)) (c : Nat) (t : Topic) :
    List (Nat × Topic) :=
  if (c, t) ∈ st then st else st ++ [(c, t)]

/-- The `socket.leave` operation (the `leave_post` / `leave_team`
handlers). -/
def leaveRoom (st : List (Nat × Topic)) (c : Nat) (t : Topic) :
    List (Nat × Topic) :=
  st.filter (· != (c, t))

/-- Connection teardown: on `disconnect` (`part_006` lines 88-93) socket.io
removes the socket from every room it had joined. -/
def disconnectConn (st : List (Nat × Topic)) (c : Nat) : List (Nat × Topic) :=
  st.filter (fun p => p.1 != c)

/-- The connections that receive an event published to a topic:
`io.to(room).emit(...)` (`SocketService.emitToPost` / `emitToTeam`,
`part_006` lines 103-111) delivers to exactly the connections currently in
that room. -/
def publishRecipients (st : List (Nat × Topic)) (t : Topic) : List Nat :=
  (st.filter (fun p => p.2 == t)).map Prod.fst

/-- The connection `c` is subscribed to no topic other than `t`. -/
def subscribedOnlyTo (st : List (Nat × Topic)) (c : Nat) (t : Topic) : Bool :=
  st.all (fun p => p.1 != c || p.2 == t)

/-- The `type` enum of the Notification schema. -/
inductive NotificationType where
  | comment_reply
  | post_upvote
  | comment_upvote
  | team_invitation
  | team_join_request
  | team_member_joined
  | mention
  | follow
  | achievement
deriving Repr, DecidableEq

/-- A persisted notification document (Notification schema fields; `isRead`
defaults to false and `readAt` is unset on creation). -/
structure NotificationRecord where
  recipient : Nat
  sender : Nat
  type : NotificationType
  title : String
  message : String
  relatedPost : Option Nat
  relatedComment : Option Nat
  relatedTeam : Option Nat
  isRead : Bool
  readAt : Option Nat
  createdAt : Nat
deriving Repr, DecidableEq

/-- The method `notificationSchema.methods.markAsRead` (Comment.js lines
147-151): sets `isRead = true` and `readAt = new Date()`. -/
def markAsRead (n : NotificationRecord) (now : Nat) : NotificationRecord :=
  { n with isRead := true, readAt := some now }

/-- Failure kind of marking a notification read. -/
inductive MarkReadError where
  | notAuthorized
deriving Repr, DecidableEq

/-- Modelled from the spec: the notifications route that authorizes the
caller before invoking `markAsRead` is not under `src/` (only the model
method, Comment.js lines 147-151, is).  Spec §4.4: "fails with
NOT_AUTHORIZED if actor != recipient; otherwise sets read=true with a read
timestamp."  The success branch applies the in-source `markAsRead`. -/
def markRead (n : NotificationRecord) (actor : Nat) (now : Nat) :
    Except MarkReadError NotificationRecord :=
  if actor = n.recipient then .ok (markAsRead n now) else .error .notAuthorized

/-- The static method `notificationSchema.statics.createNotification`
(Comment.js lines 154-189): returns null without creating anything when
sender and recipient coincide; otherwise persists a record whose `isRead` is
the schema default false and whose `readAt` is unset. -/
def createNotification (recipientId senderId : Nat) (type : NotificationType)
    (title message : String) (relatedPost relatedComment relatedTeam : Option Nat)
    (now : Nat) : Option NotificationRecord :=
  if recipientId = senderId then none
  else some
    { recipient := recipientId, sender := senderId, type := type,
      title := title, message := message, relatedPost := relatedPost,
      relatedComment := relatedComment, relatedTeam := relatedTeam,
      isRead := false, readAt := none, createdAt := now }

/-- The sort order of the notification listing: newest first
(`sort({ createdAt: -1 })`). -/
def notifNewerFirst (a b : NotificationRecord) : Prop :=
  b.createdAt ≤ a.createdAt

instance : DecidableRel notifNewerFirst := fun a b =>
  inferInstanceAs (Decidable (b.createdAt ≤ a.createdAt))

/-- The static method `notificationSchema.statics.getUserNotifications`
(Comment.js lines 192-226): filter by recipient (and, when `unreadOnly`, by
`isRead: false`), sort newest first by `createdAt`, then paginate with
`skip((page - 1) * limit).limit(limit)`. -/
def getUserNotifications (journal : List NotificationRecord) (userId : Nat)
    (unreadOnly : Bool) (page limit : Nat) : List NotificationRecord :=
  let filtered := journal.filter
    (fun n => n.recipient == userId && (!unreadOnly || !n.isRead))
  let sorted := List.insertionSort notifNewerFirst filtered
  (sorted.drop ((page - 1) * limit)).take limit

/-- A post document as the vote fan-out sees it: its author and its vote
state. -/
structure PostDoc where
  author : Nat
  votes : Votable
deriving Repr, DecidableEq

/-- Modelled from the spec: the Fan-out Coordinator step for a post upvote
is not under `src/` (no upvote route there writes a notification; only the
journal statics and the broker are present).  Spec §4.1/§4.6/§8: apply the
vote through the upvote route handler, and when the net score differs from
before the call, emit the score-changed event and write
NotificationRecord(recipient = post author, sender = voter,
kind = "post_upvote") through the in-source `createNotification` (appending
to the journal when a record is produced).  Returns the updated post, the
updated journal and whether the event fired. -/
def upvoteWithFanout (p : PostDoc) (actorId : Nat)
    (journal : List NotificationRecord) (postId now : Nat) :
    PostDoc × List NotificationRecord × Bool :=
  let scoreBefore := p.votes.score
  let votes' := (upvotePost p.votes actorId).1
  let changed := votes'.score != scoreBefore
  let journal' :=
    if changed then
      match createNotification p.author actorId .post_upvote "Post Upvoted"
          "Your post was upvoted" (some postId) none none now with
      | none => journal
      | some n => journal ++ [n]
    else journal
  ({ p with votes := votes' }, journal', changed)

/-- The notification written by the modelled post-upvote fan-out. -/
def postUpvoteRecord (author sender postId now : Nat) : NotificationRecord :=
  ⟨author, sender, .post_upvote, "Post Upvoted", "Your post was upvoted",
    some postId, none, none, false, none, now⟩

/-- A comment document (Comment schema fields used by the reply listing). -/
structure CommentDoc where
  id : Nat
  post : Nat
  parentComment : Option Nat
  upvotes : List Nat
  downvotes : List Nat
  isDeleted : Bool
  content : String
  createdAt : Nat
deriving Repr, DecidableEq

/-- The virtual `score` of the Comment schema (Comment.js lines 66-68). -/
def CommentDoc.score (c : CommentDoc) : Int :=
  (c.upvotes.length : Int) - (c.downvotes.length : Int)

/-- The ordering the spec attributes to the reply listing: score descending,
ties broken by creation time ascending.  The program does not execute it:
the listing's first sort key `score` names a Mongoose virtual with no stored
path (Comment.js lines 66-68), so the store never sees such a field.  Kept
only to compare the executed order against the spec's words. -/
def replyOrder (a b : CommentDoc) : Prop :=
  b.score < a.score ∨ (a.score = b.score ∧ a.createdAt ≤ b.createdAt)

instance : DecidableRel replyOrder := fun a b => by
  unfold replyOrder
  infer_instance

/-- The ordering the reply listing actually executes for
`sort('-score createdAt')`: `score` is an unstored virtual (Comment.js lines
66-68), so every document is missing the first key and ties on it, and the
effective order is `createdAt` ascending alone. -/
def storedReplyOrder (a b : CommentDoc) : Prop :=
  a.createdAt ≤ b.createdAt

instance : DecidableRel storedReplyOrder := fun a b => by
  unfold storedReplyOrder
  infer_instance

instance : IsTotal CommentDoc storedReplyOrder :=
  ⟨fun a b => by unfold storedReplyOrder; omega⟩

instance : IsTrans CommentDoc storedReplyOrder :=
  ⟨fun a b c hab hbc => by unfold storedReplyOrder at *; omega⟩

/-- The reply listing query of `routes/comments.js` (`/:commentId/replies`,
lines 429-494 of the document concatenated into DEPLOYMENT.md): select the
children of the parent that are not soft-deleted
(`{ parentComment: commentId, isDeleted: false }`) and order them with the
sort specifier `-score createdAt`, which the store executes as
`storedReplyOrder` (creation time ascending) because the `score` key is an
unstored virtual. -/
def listRepliesSorted (db : List CommentDoc) (parentId : Nat) :
    List CommentDoc :=
  List.insertionSort storedReplyOrder
    (db.filter (fun c => c.parentComment == some parentId && !c.isDeleted))

/-- The paginated reply listing: `skip((page - 1) * limit).limit(limit)`. -/
def listReplies (db : List CommentDoc) (parentId : Nat) (page limit : Nat) :
    List CommentDoc :=
  ((listRepliesSorted db parentId).drop ((page - 1) * limit)).take limit

/-! ## Helper lemmas on id arrays -/

theorem mem_filter_ne {l : List Nat} {a u : Nat} :
    a ∈ l.filter (· != u) ↔ a ∈ l ∧ a ≠ u := by
  simp [List.mem_filter]

theorem filter_ne_of_not_mem {l : List Nat} {u : Nat} (h : u ∉ l) :
    l.filter (· != u) = l := by
  apply List.filter_eq_self.2
  intro a ha
  simp only [bne_iff_ne, ne_eq, decide_eq_true_eq]
  rintro rfl
  exact h ha

theorem not_mem_filter_ne {l : List Nat} {u : Nat} : u ∉ l.filter (· != u) := by
  intro hmem
  exact (mem_filter_ne.1 hmem).2 rfl

theorem filter_ne_append_singleton {l : List Nat} {a : Nat} (h : a ∉ l) :
    (l ++ [a]).filter (· != a) = l := by
  rw [List.filter_append, filter_ne_of_not_mem h]
  simp

/-! ## Score ledger: the vote-set disjointness invariant (C1) -/

theorem upvotePost_disjoint {v : Votable} (h : v.DisjointVotes) (u : Nat) :
    ((upvotePost v u).1).DisjointVotes := by
  intro a ha hd
  by_cases hu : u ∈ v.upvotes
  · simp [upvotePost, hu] at ha hd
    exact h a ha.1 hd
  · by_cases hdn : u ∈ v.downvotes
    · simp [upvotePost, hu, hdn] at ha hd
      rcases ha with ha | rfl
      · exact h a ha hd.1
      · exact hd.2 rfl
    · simp [upvotePost, hu, hdn] at ha hd
      rcases ha with ha | rfl
      · exact h a ha hd
      · exact hdn hd

theorem downvotePost_disjoint {v : Votable} (h : v.DisjointVotes) (u : Nat) :
    ((downvotePost v u).1).DisjointVotes := by
  intro a ha hd
  by_cases hdn : u ∈ v.downvotes
  · simp [downvotePost, hdn] at ha hd
    exact h a ha hd.1
  · by_cases hu : u ∈ v.upvotes
    · simp [downvotePost, hdn, hu] at ha hd
      rcases hd with hd | rfl
      · exact h a ha.1 hd
      · exact ha.2 rfl
    · simp [downvotePost, hdn, hu] at ha hd
      rcases hd with hd | rfl
      · exact h a ha hd
      · exact hu ha

theorem applyVote_disjoint {v : Votable} (h : v.DisjointVotes) :
    ∀ op : VoteOp, (applyVote v op).DisjointVotes
  | .up u => upvotePost_disjoint h u
  | .down u => downvotePost_disjoint h u

/-- C1: for every votable and every actor, after any finite sequence of
upvote and downvote operations by any actors (starting from any state whose
vote sets are already disjoint, the empty initial state included), no actor
id is a member of both the upvote set and the downvote set. -/
theorem vote_sets_disjoint (ops : List VoteOp) (v : Votable)
    (h : v.DisjointVotes) : (applyVotes v ops).DisjointVotes := by
  induction ops generalizing v with
  | nil => exact h
  | cons op ops ih => exact ih _ (applyVote_disjoint h op)

/-- Witness for `vote_sets_disjoint` on a concrete operation sequence from
the empty initial state. -/
theorem vote_sets_disjoint_witness :
    (applyVotes ⟨[], []⟩ [.up 1, .down 1, .down 2, .up 2, .up 1]).DisjointVotes :=
  vote_sets_disjoint _ _ (by decide)

/-! ## Double-upvote behaviour (C8) -/

/-- C8 counterexample: on the votable whose downvote set is `{7}`,
actor 7 upvoting twice in a row leaves the score at 0, not at its original
value −1 — the removed downvote is never restored.  The claim as stated
(score returns to its value before the first call, for every votable and
actor) is therefore false. -/
theorem double_upvote_not_score_preserving :
    (upvotePost (upvotePost ⟨[], [7]⟩ 7).1 7).2.score ≠ Votable.score ⟨[], [7]⟩ ∧
    (upvotePost (upvotePost ⟨[], [7]⟩ 7).1 7).2.score = 0 ∧
    Votable.score ⟨[], [7]⟩ = -1 := by decide

/-- C8 (amended): provided the actor is in neither vote set before the
first call (so the first call is a toggle-on and the second a toggle-off),
performing the upvote operation twice in a row returns the votable exactly to
its state before the first call, the reported score to its original value and
the actor's vote state to none — for both upvote route handlers. -/
theorem double_upvote_restores (p : Votable) (a : Nat)
    (hu : a ∉ p.upvotes) (hd : a ∉ p.downvotes) :
    (upvotePost (upvotePost p a).1 a).1 = p ∧
    (upvotePost (upvotePost p a).1 a).2.score = p.score ∧
    (upvotePost (upvotePost p a).1 a).2.hasUpvoted = false ∧
    (upvotePost (upvotePost p a).1 a).2.hasDownvoted = false ∧
    (upvotePostAlt (upvotePostAlt p a).1 a).1 = p ∧
    (upvotePostAlt (upvotePostAlt p a).1 a).2.score = p.score ∧
    (upvotePostAlt (upvotePostAlt p a).1 a).2.hasUpvoted = false ∧
    (upvotePostAlt (upvotePostAlt p a).1 a).2.hasDownvoted = false := by
  have hfil : (p.upvotes ++ [a]).filter (· != a) = p.upvotes :=
    filter_ne_append_singleton hu
  have hfild : p.downvotes.filter (· != a) = p.downvotes :=
    filter_ne_of_not_mem hd
  have h1 : (upvotePost p a).1 = ⟨p.upvotes ++ [a], p.downvotes⟩ := by
    simp [upvotePost, hu, hd]
  have h1' : (upvotePostAlt p a).1 = ⟨p.upvotes ++ [a], p.downvotes⟩ := by
    simp [upvotePostAlt, hu, hfild]
  refine ⟨?_, ?_, ?_, ?_, ?_, ?_, ?_, ?_⟩ <;>
    simp [h1, h1', upvotePost, upvotePostAlt, hfil, hfild, hu, hd, Votable.score]

/-- Witness for `double_upvote_restores` at a concrete votable and actor. -/
theorem double_upvote_restores_witness :
    (upvotePost (upvotePost ⟨[3], [4]⟩ 5).1 5).1 = (⟨[3], [4]⟩ : Votable) ∧
    (upvotePost (upvotePost ⟨[3], [4]⟩ 5).1 5).2.score = Votable.score ⟨[3], [4]⟩ :=
  have h := double_upvote_restores ⟨[3], [4]⟩ 5 (by decide) (by decide)
  ⟨h.1, h.2.1⟩

/-! ## Equivalence of the two upvote handlers (C10) -/

theorem upvote_handlers_key (p : Votable) (u : Nat) (h : p.DisjointVotes) :
    upvotePost p u = upvotePostAlt p u := by
  by_cases hcu : u ∈ p.upvotes
  · have hdn : u ∉ p.downvotes := h u hcu
    have hfild : p.downvotes.filter (· != u) = p.downvotes :=
      filter_ne_of_not_mem hdn
    have hnf : u ∉ p.upvotes.filter (· != u) := not_mem_filter_ne
    simp [upvotePost, upvotePostAlt, hcu, hfild, hnf, Votable.score]
  · by_cases hcd : u ∈ p.downvotes
    · simp [upvotePost, upvotePostAlt, hcu, hcd, Votable.score]
    · have hfild : p.downvotes.filter (· != u) = p.downvotes :=
        filter_ne_of_not_mem hcd
      simp [upvotePost, upvotePostAlt, hcu, hcd, hfild, Votable.score]

/-- C10: for every post whose upvote and downvote sets are disjoint and
every voting user, the two upvote route handlers present in the source (the
toggle-based one and the pull-downvote-then-toggle one) produce the same
final upvote-set membership, the same final downvote-set membership, and the
same returned score, `hasUpvoted` and `hasDownvoted` fields. -/
theorem upvote_handlers_agree (p : Votable) (u : Nat) (h : p.DisjointVotes) :
    (∀ a : Nat, a ∈ (upvotePost p u).1.upvotes ↔ a ∈ (upvotePostAlt p u).1.upvotes) ∧
    (∀ a : Nat, a ∈ (upvotePost p u).1.downvotes ↔ a ∈ (upvotePostAlt p u).1.downvotes) ∧
    (upvotePost p u).2 = (upvotePostAlt p u).2 := by
  rw [upvote_handlers_key p u h]
  exact ⟨fun _ => Iff.rfl, fun _ => Iff.rfl, rfl⟩

/-- Witness for `upvote_handlers_agree` at a concrete post and user. -/
theorem upvote_handlers_agree_witness :
    (upvotePost ⟨[1], [2]⟩ 2).2 = (upvotePostAlt ⟨[1], [2]⟩ 2).2 ∧
    (2 ∈ (upvotePost ⟨[1], [2]⟩ 2).1.downvotes ↔
      2 ∈ (upvotePostAlt ⟨[1], [2]⟩ 2).1.downvotes) :=
  have h := upvote_handlers_agree ⟨[1], [2]⟩ 2 (by decide)
  ⟨h.2.2, h.2.1 2⟩

/-! ## Membership registry (C4) -/

/-- C4: join fails with ALREADY_MEMBER when the actor is already among
the members; with TEAM_FULL when (not already a member and) the member count
is at least the capacity; with TEAM_CLOSED when (not already a member, not
full and) the open flag is false — the three checks run in that order — and
whenever join fails the member list is unchanged. -/
theorem join_team_errors (t : Team) (u : Nat) (now : Nat) :
    (t.isMember u = true → joinTeam t u now = (t, some .alreadyMember)) ∧
    (t.isMember u = false → t.maxMembers ≤ t.members.length →
      joinTeam t u now = (t, some .teamFull)) ∧
    (t.isMember u = false → t.members.length < t.maxMembers → t.isOpen = false →
      joinTeam t u now = (t, some .teamClosed)) ∧
    (∀ e : JoinError, (joinTeam t u now).2 = some e →
      (joinTeam t u now).1.members = t.members) := by
  refine ⟨?_, ?_, ?_, ?_⟩
  · intro h
    simp [joinTeam, h]
  · intro h hfull
    simp [joinTeam, h, hfull]
  · intro h hlt hopen
    simp [joinTeam, h, Nat.not_le_of_lt hlt, hopen, Nat.not_le]
  · intro e he
    unfold joinTeam at he ⊢
    split_ifs at he ⊢ <;> simp_all

/-- Witness for `join_team_errors`: a team with capacity 2 and 2 members
rejects a third join with TEAM_FULL and keeps its 2 members. -/
theorem join_team_errors_witness :
    joinTeam ⟨1, [⟨1, .admin, 0⟩, ⟨2, .member, 1⟩], 2, true⟩ 3 5 =
      (⟨1, [⟨1, .admin, 0⟩, ⟨2, .member, 1⟩], 2, true⟩, some .teamFull) :=
  (join_team_errors ⟨1, [⟨1, .admin, 0⟩, ⟨2, .member, 1⟩], 2, true⟩ 3 5).2.1
    (by decide) (by decide)

/-! ## Presence tracking (C5) -/

/-- C5 counterexample: user 1 opens connections 10 and 20 and closes
only connection 20; connection 10 is still live, yet `isUserOnline` reports
false, because the service keeps a single socket id per user and deletes the
user's entry on any disconnect of the user's sockets.  The claim as stated
(`isOnline` true exactly when at least one live connection exists, including
the several-connections case) is therefore false. -/
theorem isOnline_misses_remaining_connection :
    isUserOnline (runPresence
      [.connect 1 10, .connect 1 20, .disconnect 1 20]) 1 = false ∧
    hasLiveConnection (runPresence
      [.connect 1 10, .connect 1 20, .disconnect 1 20]) 1 = true := by
  constructor <;> rfl

theorem isUserOnline_step_connect (st : PresenceState) (v s u : Nat) :
    isUserOnline (stepPresence st (.connect v s)) u =
      if v = u then true else isUserOnline st u := by
  by_cases hv : v = u
  · subst hv
    simp [stepPresence, isUserOnline]
  · simp [stepPresence, isUserOnline, hv, Ne.symm hv]

theorem isUserOnline_step_disconnect (st : PresenceState) (v s u : Nat) :
    isUserOnline (stepPresence st (.disconnect v s)) u =
      if v = u then false else isUserOnline st u := by
  by_cases hv : v = u
  · subst hv
    simp [stepPresence, isUserOnline]
  · simp [stepPresence, isUserOnline, hv, Ne.symm hv]

theorem isOnline_lastConnected_aux (tr : List ConnEvent) (u : Nat) :
    ∀ st : PresenceState,
      isUserOnline (runPresenceFrom st tr) u =
        tr.foldl
          (fun b e =>
            match e with
            | .connect v _ => if v = u then true else b
            | .disconnect v _ => if v = u then false else b)
          (isUserOnline st u) := by
  induction tr with
  | nil => intro st; rfl
  | cons e tr ih =>
    intro st
    rw [List.foldl_cons]
    have h1 : runPresenceFrom st (e :: tr) = runPresenceFrom (stepPresence st e) tr :=
      rfl
    rw [h1, ih (stepPresence st e)]
    congr 1
    cases e with
    | connect v s => exact isUserOnline_step_connect st v s u
    | disconnect v s => exact isUserOnline_step_disconnect st v s u

/-- C5 (amended): `isUserOnline(actor)` returns true exactly when the
actor's most recent connection event is an open: the presence map stores a
single connection id per actor and removes the actor on any disconnect of
one of the actor's sockets, so an actor who opened several connections and
closed only one of them is reported offline even though a live connection
remains. -/
theorem isOnline_iff_lastConnected (tr : List ConnEvent) (u : Nat) :
    isUserOnline (runPresence tr) u = lastConnected tr u := by
  have h := isOnline_lastConnected_aux tr u PresenceState.init
  simpa [runPresence, lastConnected, isUserOnline, PresenceState.init] using h

/-- Witness for `isOnline_iff_lastConnected` on a concrete trace. -/
theorem isOnline_iff_lastConnected_witness :
    isUserOnline (runPresence [.connect 2 30, .disconnect 2 30, .connect 2 31]) 2 =
      lastConnected [.connect 2 30, .disconnect 2 30, .connect 2 31] 2 :=
  isOnline_iff_lastConnected [.connect 2 30, .disconnect 2 30, .connect 2 31] 2

/-! ## Topic broker (C9) -/

/-- C9: a connection subscribed only to topic `post:1` never receives an
event published to topic `post:2`, and closing that connection leaves the
subscriber set of `post:2` unchanged for every other connection. -/
theorem topic_isolation (st : List (Nat × Topic)) (c : Nat)
    (h : subscribedOnlyTo st c (Topic.post 1) = true) :
    c ∉ publishRecipients st (Topic.post 2) ∧
    ∀ c' : Nat, c' ≠ c →
      (c' ∈ publishRecipients (disconnectConn st c) (Topic.post 2) ↔
        c' ∈ publishRecipients st (Topic.post 2)) := by
  constructor
  · intro hmem
    obtain ⟨p, hp, hpc⟩ := List.mem_map.1 hmem
    have hpf := List.mem_filter.1 hp
    have h2 : p.2 = Topic.post 2 := by simpa using hpf.2
    have hall := List.all_eq_true.1 h p hpf.1
    simp [hpc, h2] at hall
  · intro c' hc'
    constructor
    · intro hm
      obtain ⟨p, hp, hpc⟩ := List.mem_map.1 hm
      have hpf := List.mem_filter.1 hp
      have hpd := List.mem_filter.1 hpf.1
      exact List.mem_map.2 ⟨p, List.mem_filter.2 ⟨hpd.1, hpf.2⟩, hpc⟩
    · intro hm
      obtain ⟨p, hp, hpc⟩ := List.mem_map.1 hm
      have hpf := List.mem_filter.1 hp
      refine List.mem_map.2
        ⟨p, List.mem_filter.2 ⟨List.mem_filter.2 ⟨hpf.1, ?_⟩, hpf.2⟩, hpc⟩
      simp [hpc, hc']

/-- Witness for `topic_isolation`: connection 5 joined `post:1` only and
connection 7 joined `post:2`; a publish to `post:2` does not reach 5, and
disconnecting 5 does not change whether 7 receives it. -/
theorem topic_isolation_witness :
    5 ∉ publishRecipients (joinRoom (joinRoom [] 5 (.post 1)) 7 (.post 2))
        (Topic.post 2) ∧
    (7 ∈ publishRecipients
          (disconnectConn (joinRoom (joinRoom [] 5 (.post 1)) 7 (.post 2)) 5)
          (Topic.post 2) ↔
      7 ∈ publishRecipients (joinRoom (joinRoom [] 5 (.post 1)) 7 (.post 2))
          (Topic.post 2)) :=
  have h := topic_isolation (joinRoom (joinRoom [] 5 (.post 1)) 7 (.post 2)) 5
    (by decide)
  ⟨h.1, h.2 7 (by decide)⟩

/-! ## Notification journal (C6, C7) -/

/-- C6: `markRead(record, actor)` fails with NOT_AUTHORIZED whenever the
actor is not the record's recipient, and otherwise sets the record's read
flag to true together with a read timestamp (all other fields unchanged). -/
theorem markRead_authorization (n : NotificationRecord) (a : Nat) (now : Nat) :
    (a ≠ n.recipient → markRead n a now = .error .notAuthorized) ∧
    (a = n.recipient →
      markRead n a now = .ok { n with isRead := true, readAt := some now }) := by
  constructor
  · intro h
    simp [markRead, h]
  · intro h
    simp [markRead, h, markAsRead]

/-- Witness for `markRead_authorization` at a concrete record: actor 9 is
not the recipient and is rejected; the recipient 4 marks it read. -/
theorem markRead_authorization_witness :
    markRead ⟨4, 8, .post_upvote, "t", "m", none, none, none, false, none, 3⟩ 9 11 =
      .error .notAuthorized ∧
    markRead ⟨4, 8, .post_upvote, "t", "m", none, none, none, false, none, 3⟩ 4 11 =
      .ok ⟨4, 8, .post_upvote, "t", "m", none, none, none, true, some 11, 3⟩ :=
  ⟨(markRead_authorization ⟨4, 8, .post_upvote, "t", "m", none, none, none,
      false, none, 3⟩ 9 11).1 (by decide),
   (markRead_authorization ⟨4, 8, .post_upvote, "t", "m", none, none, none,
      false, none, 3⟩ 4 11).2 rfl⟩

/-- C7: `record(recipient, sender, kind, payload)` returns null and
creates no NotificationRecord whenever recipient equals sender, and
otherwise persists a NotificationRecord with read=false for that recipient
and sender. -/
theorem createNotification_self_suppression (r s : Nat) (ty : NotificationType)
    (ti ms : String) (rp rc rt : Option Nat) (now : Nat) :
    (r = s → createNotification r s ty ti ms rp rc rt now = none) ∧
    (r ≠ s → ∃ n : NotificationRecord,
      createNotification r s ty ti ms rp rc rt now = some n ∧
      n.isRead = false ∧ n.readAt = none ∧ n.recipient = r ∧ n.sender = s ∧
      n.type = ty) := by
  constructor
  · intro h
    simp [createNotification, h]
  · intro h
    refine ⟨⟨r, s, ty, ti, ms, rp, rc, rt, false, none, now⟩,
      ?_, rfl, rfl, rfl, rfl, rfl⟩
    simp [createNotification, h]

/-- Witness for `createNotification_self_suppression`: a self-vote
notification is suppressed; a distinct-recipient one is persisted unread. -/
theorem createNotification_self_suppression_witness :
    createNotification 6 6 .post_upvote "t" "m" none none none 2 = none ∧
    ∃ n : NotificationRecord,
      createNotification 4 6 .post_upvote "t" "m" none none none 2 = some n ∧
      n.isRead = false :=
  ⟨(createNotification_self_suppression 6 6 .post_upvote "t" "m" none none none 2).1
      rfl,
   have h := (createNotification_self_suppression 4 6 .post_upvote "t" "m" none
      none none 2).2 (by decide)
   ⟨h.choose, h.choose_spec.1, h.choose_spec.2.1⟩⟩

/-! ## Fan-out for post upvotes (C2) -/

/-- C2: when actor B upvotes actor A's post (A distinct from B, B not
having voted on it yet, A's journal empty), the net score rises by one, the
score-changed event fires, and a NotificationRecord with recipient A,
sender B and kind post_upvote is written, so that a later
`listNotifications(A, unreadOnly = true)` returns exactly that one record
with read = false; the event flag is exactly the score-changed test (it
does not fire when the net score is unchanged). -/
theorem upvote_fanout_notifies (p : PostDoc) (b : Nat)
    (journal : List NotificationRecord) (postId now : Nat)
    (hab : b ≠ p.author)
    (hu : b ∉ p.votes.upvotes) (hd : b ∉ p.votes.downvotes)
    (hj : journal.filter (fun n => n.recipient == p.author) = []) :
    (upvoteWithFanout p b journal postId now).1.votes.score =
      p.votes.score + 1 ∧
    (upvoteWithFanout p b journal postId now).2.2 = true ∧
    getUserNotifications (upvoteWithFanout p b journal postId now).2.1
        p.author true 1 20 = [postUpvoteRecord p.author b postId now] := by
  have hv : (upvotePost p.votes b).1 =
      ⟨p.votes.upvotes ++ [b], p.votes.downvotes⟩ := by
    simp [upvotePost, hu, hd]
  have hscore : (Votable.mk (p.votes.upvotes ++ [b]) p.votes.downvotes).score =
      p.votes.score + 1 := by
    simp only [Votable.score, List.length_append, List.length_cons,
      List.length_nil]
    push_cast
    ring
  have hchanged :
      ((upvotePost p.votes b).1.score != p.votes.score) = true := by
    rw [hv, hscore]
    simp only [bne_iff_ne, ne_eq]
    omega
  have hcreate : createNotification p.author b .post_upvote "Post Upvoted"
      "Your post was upvoted" (some postId) none none now =
      some (postUpvoteRecord p.author b postId now) := by
    simp [createNotification, Ne.symm hab, postUpvoteRecord]
  have hjournal : (upvoteWithFanout p b journal postId now).2.1 =
      journal ++ [postUpvoteRecord p.author b postId now] := by
    simp only [upvoteWithFanout, hchanged, if_true, hcreate]
  have hjfil : ∀ n ∈ journal, ¬(n.recipient == p.author) = true := by
    intro n hn
    exact (List.filter_eq_nil_iff.1 hj) n hn
  refine ⟨?_, ?_, ?_⟩
  · simp only [upvoteWithFanout, hv]
    exact hscore
  · simp only [upvoteWithFanout]
    exact hchanged
  · rw [hjournal]
    have h1 : journal.filter
        (fun n => n.recipient == p.author && (!true || !n.isRead)) = [] := by
      apply List.filter_eq_nil_iff.2
      intro n hn
      simp only [Bool.and_eq_true, not_and]
      intro hrec
      exact absurd hrec (hjfil n hn)
    have hfil : (journal ++ [postUpvoteRecord p.author b postId now]).filter
        (fun n => n.recipient == p.author && (!true || !n.isRead)) =
        [postUpvoteRecord p.author b postId now] := by
      rw [List.filter_append, h1]
      simp [postUpvoteRecord]
    simp only [getUserNotifications, hfil]
    simp [List.insertionSort, List.orderedInsert]

/-- Witness for `upvote_fanout_notifies` at a concrete post, voter and empty
journal. -/
theorem upvote_fanout_notifies_witness :
    getUserNotifications
        (upvoteWithFanout ⟨1, ⟨[], []⟩⟩ 2 [] 9 7).2.1 1 true 1 20 =
      [postUpvoteRecord 1 2 9 7] :=
  (upvote_fanout_notifies ⟨1, ⟨[], []⟩⟩ 2 [] 9 7 (by decide) (by decide)
    (by decide) rfl).2.2

/-! ## Thread store (C3) -/

/-- C3 counterexample: comment 2 is a soft-deleted child of comment 1
(content replaced by the `[deleted]` tombstone) with a non-deleted child of
its own, so it is deleted-but-structurally-necessary, yet the reply listing
for comment 1 omits it, because the query filters `isDeleted: false`; and
the two live replies come back in creation order even though the later one
has the higher score, because the `score` sort key is an unstored virtual,
so the claimed score-descending order is not executed either.  The claim as
stated is therefore false on both counts. -/
theorem listReplies_omits_tombstoned :
    listReplies
        [⟨1, 1, none, [], [], false, "r", 0⟩,
         ⟨2, 1, some 1, [], [], true, "[deleted]", 1⟩,
         ⟨3, 1, some 2, [], [], false, "g", 2⟩,
         ⟨4, 1, some 1, [], [], false, "a", 3⟩,
         ⟨5, 1, some 1, [8, 9], [], false, "b", 4⟩] 1 1 10 =
      [⟨4, 1, some 1, [], [], false, "a", 3⟩,
       ⟨5, 1, some 1, [8, 9], [], false, "b", 4⟩] ∧
    (⟨4, 1, some 1, [], [], false, "a", 3⟩ : CommentDoc).score <
      (⟨5, 1, some 1, [8, 9], [], false, "b", 4⟩ : CommentDoc).score ∧
    ¬ (listReplies
        [⟨1, 1, none, [], [], false, "r", 0⟩,
         ⟨2, 1, some 1, [], [], true, "[deleted]", 1⟩,
         ⟨3, 1, some 2, [], [], false, "g", 2⟩,
         ⟨4, 1, some 1, [], [], false, "a", 3⟩,
         ⟨5, 1, some 1, [8, 9], [], false, "b", 4⟩] 1 1 10).Sorted replyOrder ∧
    (⟨2, 1, some 1, [], [], true, "[deleted]", 1⟩ : CommentDoc).isDeleted = true ∧
    (⟨2, 1, some 1, [], [], true, "[deleted]", 1⟩ : CommentDoc) ∉
      listReplies
        [⟨1, 1, none, [], [], false, "r", 0⟩,
         ⟨2, 1, some 1, [], [], true, "[deleted]", 1⟩,
         ⟨3, 1, some 2, [], [], false, "g", 2⟩,
         ⟨4, 1, some 1, [], [], false, "a", 3⟩,
         ⟨5, 1, some 1, [8, 9], [], false, "b", 4⟩] 1 1 10 ∧
    (⟨3, 1, some 2, [], [], false, "g", 2⟩ : CommentDoc).parentComment = some 2 := by
  decide

/-- C3 (amended): the reply listing returns exactly the non-deleted
children of the parent (soft-deleted children are omitted entirely, never
tombstoned in the listing), ordered by creation time ascending — the
requested `score` sort key is an unstored virtual, so it never influences
the executed order. -/
theorem listReplies_nondeleted_sorted (db : List CommentDoc) (parentId : Nat) :
    (listRepliesSorted db parentId).Sorted storedReplyOrder ∧
    List.Perm (listRepliesSorted db parentId)
      (db.filter (fun c => c.parentComment == some parentId && !c.isDeleted)) ∧
    ∀ c : CommentDoc, c ∈ listRepliesSorted db parentId ↔
      c ∈ db ∧ c.parentComment = some parentId ∧ c.isDeleted = false := by
  refine ⟨List.sorted_insertionSort _ _, List.perm_insertionSort _ _, ?_⟩
  intro c
  rw [listRepliesSorted, List.mem_insertionSort, List.mem_filter]
  simp [and_assoc]

/-- Witness for `listReplies_nondeleted_sorted` on a concrete comment
store. -/
theorem listReplies_nondeleted_sorted_witness :
    (listRepliesSorted
        [⟨1, 1, none, [], [], false, "r", 0⟩,
         ⟨2, 1, some 1, [], [], false, "a", 1⟩,
         ⟨3, 1, some 1, [1], [], false, "b", 2⟩] 1).Sorted storedReplyOrder ∧
    (⟨3, 1, some 1, [1], [], false, "b", 2⟩ : CommentDoc) ∈
      listRepliesSorted
        [⟨1, 1, none, [], [], false, "r", 0⟩,
         ⟨2, 1, some 1, [], [], false, "a", 1⟩,
         ⟨3, 1, some 1, [1], [], false, "b", 2⟩] 1 :=
  have h := listReplies_nondeleted_sorted
    [⟨1, 1, none, [], [], false, "r", 0⟩,
     ⟨2, 1, some 1, [], [], false, "a", 1⟩,
     ⟨3, 1, some 1, [1], [], false, "b", 2⟩] 1
  ⟨h.1, (h.2.2 ⟨3, 1, some 1, [1], [], false, "b", 2⟩).2
    ⟨by decide, rfl, rfl⟩⟩

end CodeCircle
